import Mathlib

/-!
Shallow embedding of `src/src/slack.js` (the `SlackBot` class of pbhak/tarot).

The bot's observable behaviour is modelled as pure state-passing functions:
* `BotState` holds the fields of the `SlackBot` object (`channelId`,
  `rootMessage`), the persisted `.rootmessage` file, the key-value store
  contents and the current clock (milliseconds).
* Calls to the Slack web API (`chat.postMessage`, `reactions.*`) and
  `console.error` logging are recorded in a trace of `Effect`s; the results
  of `chat.postMessage` calls come from an oracle `gw : Nat → Except String
  PostResult` consumed at successive indices (an `Except.error` models the
  call throwing).
* `Math.random()` is a parameter `rand : ℚ` with `0 ≤ rand < 1`.
* JavaScript `undefined` flowing out of an out-of-bounds array index is
  `Option.none`; dereferencing a property of `undefined` is the
  `JsError.typeError` outcome.
-/

/-- Result of a successful `chat.postMessage` call (`result.channel`,
`result.ts` are the only fields the source reads). -/
structure PostResult where
  channel : String
  ts : String
deriving DecidableEq, Repr

/-- The session record the source keeps in `this.rootMessage` and in the
`.rootmessage` file: `{channelId, messageTs}`. -/
structure RootMessage where
  channelId : String
  messageTs : String
deriving DecidableEq, Repr

/-- A value stored in the key-value store: the cooldown keys hold the boolean
marker `true`, the hand keys hold an array of card identifiers.  A hand entry
is `Option String` because the source can push JavaScript `undefined`
(`Option.none`) into a hand. -/
inductive KVValue where
  | bool (b : Bool)
  | hand (h : List (Option String))
deriving DecidableEq, Repr

/-- Modelled from the spec: the Key-Value Store contract of `kv.js` (not under
`src/`): `set(key, value, ttlMillis?)` records an optional absolute expiry
time; `get(key)` returns the value while unexpired. -/
structure KVEntry where
  value : KVValue
  expiresAt : Option Nat
deriving DecidableEq, Repr

/-- The state of one `SlackBot` plus its external stores. -/
structure BotState where
  channelId : String
  rootMessage : Option RootMessage
  persistedRoot : Option RootMessage
  kv : List (String × KVEntry)
  now : Nat
deriving DecidableEq, Repr

/-- One observable action, in program order. -/
inductive Effect where
  | reaction (messageTs name : String) (turnOn : Bool)
  | post (channel text : String) (threadTs : Option String) (username : Option String)
  | kvGetE (key : String)
  | kvSetE (key : String)
  | logError (site : String)
deriving DecidableEq, Repr

/-- An error propagating by JavaScript `throw`. -/
inductive JsError where
  | typeError
  | transport (msg : String)
deriving DecidableEq, Repr

deriving instance DecidableEq for Except

/-- A card of the catalog: `{name, flavor, requirements}` (the id is the key). -/
structure Card where
  name : String
  flavor : String
  requirements : String
deriving DecidableEq, Repr

/-- Modelled from the spec: the Content Catalog (`transcript.js`, not under
`src/`).  `cards` is the object returned by `transcript('cards')` — an ordered
association of card id to `Card`, as `Object.keys` enumerates it; `tr` is the
localized-string lookup used for `transcript('drawing.start')` and the like.
`gw` is the Messaging Gateway oracle for successive `chat.postMessage` calls
and `rand` is the value of `Math.random()`. -/
structure Env where
  cards : List (String × Card)
  tr : String → String
  gw : Nat → Except String PostResult
  rand : ℚ

/-- First entry for a key in the store (later `set`s are prepended, so the
head occurrence is the current one). -/
def kvLookup : List (String × KVEntry) → String → Option KVEntry
  | [], _ => none
  | (k, e) :: rest, key => if k = key then some e else kvLookup rest key

/-- Modelled from the spec: `kv.get` — the stored value while present and
unexpired, otherwise absent. -/
def kvGet (s : BotState) (key : String) : Option KVValue :=
  match kvLookup s.kv key with
  | none => none
  | some e =>
    match e.expiresAt with
    | none => some e.value
    | some t => if s.now < t then some e.value else none

/-- Modelled from the spec: `kv.set key value ttlMillis?` — stores the value,
expiring `ttl` milliseconds from now when a ttl is given. -/
def kvSet (s : BotState) (key : String) (v : KVValue) (ttl : Option Nat) : BotState :=
  { s with kv := (key, ⟨v, ttl.map (s.now + ·)⟩) :: s.kv }

/-- JavaScript truthiness of a value read back from the store: absent and
`false` are falsy; `true` and any array are truthy. -/
def truthy : Option KVValue → Bool
  | none => false
  | some (.bool b) => b
  | some (.hand _) => true

/-- `saveRootMessage` (src/src/slack.js:29): persist `this.rootMessage` to the
`.rootmessage` file (best-effort). -/
def saveRootMessage (s : BotState) : BotState :=
  { s with persistedRoot := s.rootMessage }

/-- `sendMessage` (src/src/slack.js:37): post `message` to the configured
channel, threaded under `threadTs` when given, with an optional display
`username`; on success of a non-threaded send, overwrite `this.rootMessage`
with the new message's channel and timestamp and persist it.  On failure, log
and rethrow.  Returns the outcome, the new state, the next gateway index and
the effect trace of the call. -/
def sendMessage (env : Env) (s : BotState) (k : Nat)
    (message : String) (threadTs : Option String) (username : Option String) :
    Except JsError PostResult × BotState × Nat × List Effect :=
  let eff := Effect.post s.channelId message threadTs username
  match env.gw k with
  | .error e => (.error (.transport e), s, k + 1, [eff, .logError "sendMessage"])
  | .ok result =>
    match threadTs with
    | some _ => (.ok result, s, k + 1, [eff])
    | none =>
      let s' := saveRootMessage
        { s with rootMessage := some ⟨result.channel, result.ts⟩ }
      (.ok result, s', k + 1, [eff])

/-- The hand read at src/src/slack.js:117-120: `kv.get(...) || []`.  Absent or
falsy values default to the empty hand; a stored array is used as is; the
truthy non-array marker `true` would make `userHand.includes` throw, giving
`none`. -/
def resolveHand : Option KVValue → Option (List (Option String))
  | none => some []
  | some (.bool false) => some []
  | some (.bool true) => none
  | some (.hand h) => some h

/-- Association lookup in the catalog object: `allCards[key]`. -/
def lookupCard : List (String × Card) → String → Option Card
  | [], _ => none
  | (k, c) :: rest, key => if k = key then some c else lookupCard rest key

/-- The string a JavaScript property access coerces its key to:
`allCards[randomCard]` with `randomCard = undefined` reads property
`"undefined"`. -/
def jsKey : Option String → String
  | some s => s
  | none => "undefined"

/-- `username.startsWith('U')`: the first character is `'U'`. -/
def jsStartsWithU (s : String) : Bool :=
  s.data.head? == some 'U'

/-- `text.trim()` on the character sequence: strip leading and trailing
whitespace. -/
def jsTrim (s : List Char) : List Char :=
  ((s.dropWhile Char.isWhitespace).reverse.dropWhile Char.isWhitespace).reverse

/-- `text.toUpperCase()` on the character sequence. -/
def jsToUpperCase (s : List Char) : List Char :=
  s.map Char.toUpper

/-- Outcome of one `drawCard` call. -/
structure DrawOut where
  outcome : Except JsError Unit
  state : BotState
  gwIdx : Nat
  effects : List Effect
deriving Repr

/-- `drawCard` (src/src/slack.js:97): react with a beachball, announce the
draw start in the thread, reject if a cooldown marker exists, otherwise write
a 30-second cooldown marker, read the hand, pick a uniformly random card not
yet in the hand, append it to the persisted hand and announce it.  Any error
is logged and rethrown. -/
def drawCard (env : Env) (s : BotState) (k : Nat) (messageTs username : String) :
    DrawOut :=
  let userMention := if jsStartsWithU username then "<@" ++ username ++ ">" else username
  let reactEff := Effect.reaction messageTs "beachball" true
  let (r1, s1, k1, e1) :=
    sendMessage env s k (userMention ++ " " ++ env.tr "drawing.start" ++ "...")
      (some messageTs) none
  match r1 with
  | .error e => ⟨.error e, s1, k1, reactEff :: e1 ++ [.logError "drawCard"]⟩
  | .ok _ =>
    let cdKey := "card_draw:" ++ username
    let getCdEff := Effect.kvGetE cdKey
    if truthy (kvGet s1 cdKey) then
      let (r2, s2, k2, e2) :=
        sendMessage env s1 k1 (userMention ++ " " ++ env.tr "drawing.too_soon")
          (some messageTs) none
      match r2 with
      | .error e => ⟨.error e, s2, k2, reactEff :: e1 ++ getCdEff :: e2 ++ [.logError "drawCard"]⟩
      | .ok _ => ⟨.ok (), s2, k2, reactEff :: e1 ++ getCdEff :: e2⟩
    else
      let s2 := kvSet s1 cdKey (.bool true) (some (30 * 1000))
      let handKey := "user_hand:" ++ username
      let effsToHand := reactEff :: e1 ++ [getCdEff, Effect.kvSetE cdKey, Effect.kvGetE handKey]
      match resolveHand (kvGet s2 handKey) with
      | none => ⟨.error .typeError, s2, k1, effsToHand ++ [.logError "drawCard"]⟩
      | some userHand =>
        let cardKeys := env.cards.map Prod.fst
        let availableCards := cardKeys.filter (fun key => !decide (some key ∈ userHand))
        let idx := (env.rand * (availableCards.length : ℚ)).floor.toNat
        let randomCard : Option String := availableCards.get? idx
        let newHand := userHand ++ [randomCard]
        let s3 := kvSet s2 handKey (.hand newHand) none
        let effs2 := effsToHand ++ [Effect.kvSetE handKey]
        let chosenCard := lookupCard env.cards (jsKey randomCard)
        let flavor := env.tr ("cards." ++ jsKey randomCard ++ ".flavor")
        match chosenCard with
        | none => ⟨.error .typeError, s3, k1, effs2 ++ [.logError "drawCard"]⟩
        | some card =>
          let (r3, s4, k3, e3) :=
            sendMessage env s3 k1
              (userMention ++ " draws the " ++ card.name ++ "!\n_" ++ flavor ++
                "_\n\nRequirements: " ++ card.requirements)
              (some messageTs) none
          match r3 with
          | .error e => ⟨.error e, s4, k3, effs2 ++ e3 ++ [.logError "drawCard"]⟩
          | .ok _ => ⟨.ok (), s4, k3, effs2 ++ e3⟩

/-- A Slack `message` event as the handler reads it: absent fields
(`thread_ts` on a non-threaded message, `bot_id` on a human message) are
`none`. -/
structure MessageEvent where
  channel : String
  thread_ts : Option String
  ts : String
  text : String
  user : String
  bot_id : Option String
deriving DecidableEq, Repr

/-- The actor resolution at src/src/slack.js:181: a bot message acts as the
narrator `'The Fool'`, a human message as its `event.user`. -/
def resolveUsername (event : MessageEvent) : String :=
  match event.bot_id with
  | some _ => "The Fool"
  | none => event.user

/-- Outcome of one `handleMessageEvent` call; `calledDraw` records whether
`drawCard` was invoked. -/
structure HandleOut where
  state : BotState
  gwIdx : Nat
  effects : List Effect
  calledDraw : Bool
deriving Repr

/-- `handleMessageEvent` (src/src/slack.js:156): ignore events outside the
configured channel; compare `event.thread_ts === this.rootMessage?.messageTs`
(strict equality of possibly-`undefined` values); on the normalized text
`"DRAW"`, resolve the actor (`'The Fool'` for bot messages, else
`event.user`) and run `drawCard`; every error is caught and logged, never
rethrown. -/
def handleMessageEvent (env : Env) (s : BotState) (k : Nat) (event : MessageEvent) :
    HandleOut :=
  if event.channel ≠ s.channelId then ⟨s, k, [], false⟩
  else if event.thread_ts = s.rootMessage.map RootMessage.messageTs then
    if jsToUpperCase (jsTrim event.text.data) = "DRAW".data then
      let d := drawCard env s k event.ts (resolveUsername event)
      match d.outcome with
      | .ok _ => ⟨d.state, d.gwIdx, d.effects, true⟩
      | .error _ => ⟨d.state, d.gwIdx, d.effects ++ [.logError "handleMessageEvent"], true⟩
    else ⟨s, k, [], false⟩
  else ⟨s, k, [], false⟩

/-- Whether an effect is an outbound chat message. -/
def isPost : Effect → Bool
  | .post _ _ _ _ => true
  | _ => false

/-! ## Sample data for concrete runs -/

/-- A one-card sample catalog. -/
def sampleCards : List (String × Card) :=
  [("A", ⟨"The Sun", "warm", "none"⟩)]

/-- A gateway that answers every post. -/
def gwOk : Nat → Except String PostResult := fun _ => .ok ⟨"C1", "111.222"⟩

/-- A gateway whose every post throws. -/
def gwFail : Nat → Except String PostResult := fun _ => .error "down"

/-- A gateway that answers the first post and throws on the rest. -/
def gwOkThenFail : Nat → Except String PostResult := fun n =>
  if n = 0 then .ok ⟨"C1", "111.222"⟩ else .error "down"

/-- Sample environment: one-card catalog, fixed localized text, healthy
gateway, `Math.random() = 0`. -/
def envOk : Env := { cards := sampleCards, tr := fun _ => "msg", gw := gwOk, rand := 0 }

/-- `envOk` with a failing gateway. -/
def envFail : Env := { cards := sampleCards, tr := fun _ => "msg", gw := gwFail, rand := 0 }

/-- `envOk` with a gateway that fails from the second post on. -/
def envOkThenFail : Env :=
  { cards := sampleCards, tr := fun _ => "msg", gw := gwOkThenFail, rand := 0 }

/-- A bot with an active session and empty stores. -/
def stFresh : BotState :=
  { channelId := "C1", rootMessage := some ⟨"C1", "100.0"⟩,
    persistedRoot := some ⟨"C1", "100.0"⟩, kv := [], now := 0 }

/-- `stFresh` with an unexpired cooldown marker for player `U7`. -/
def stCooldown : BotState :=
  { channelId := "C1", rootMessage := some ⟨"C1", "100.0"⟩,
    persistedRoot := some ⟨"C1", "100.0"⟩,
    kv := [("card_draw:U7", ⟨.bool true, some 30000⟩)], now := 0 }

/-- `stFresh` before any session was loaded. -/
def stNoSession : BotState :=
  { channelId := "C1", rootMessage := none, persistedRoot := none, kv := [], now := 0 }

/-- `stFresh` with player `U7` already holding the whole sample catalog. -/
def stExhausted : BotState :=
  { channelId := "C1", rootMessage := some ⟨"C1", "100.0"⟩,
    persistedRoot := some ⟨"C1", "100.0"⟩,
    kv := [("user_hand:U7", ⟨.hand [some "A"], none⟩)], now := 0 }

/-- An in-thread human `DRAW` message from `U7`. -/
def evDraw : MessageEvent :=
  { channel := "C1", thread_ts := some "100.0", ts := "200.0", text := "DRAW",
    user := "U7", bot_id := none }

/-- A top-level (non-threaded) human `DRAW` message from `U7`. -/
def evNoThreadDraw : MessageEvent :=
  { channel := "C1", thread_ts := none, ts := "200.0", text := "DRAW",
    user := "U7", bot_id := none }

/-- An in-thread `DRAW` message from the enterprise-grid-style player id
`W123`. -/
def evDrawW : MessageEvent :=
  { channel := "C1", thread_ts := some "100.0", ts := "200.0", text := "DRAW",
    user := "W123", bot_id := none }

/-- `stFresh` with an unexpired cooldown marker for player `W123`. -/
def stCooldownW : BotState :=
  { channelId := "C1", rootMessage := some ⟨"C1", "100.0"⟩,
    persistedRoot := some ⟨"C1", "100.0"⟩,
    kv := [("card_draw:W123", ⟨.bool true, some 30000⟩)], now := 0 }

/-! ## Helper lemmas -/

theorem cardDraw_key_ne (u : String) : "card_draw:" ++ u ≠ "user_hand:" ++ u := by
  intro h
  have h2 := congrArg String.data h
  rw [String.data_append, String.data_append] at h2
  simp at h2

theorem kvGet_kvSet_ne (s : BotState) (key' key : String) (v : KVValue)
    (ttl : Option Nat) (h : key' ≠ key) :
    kvGet (kvSet s key' v ttl) key = kvGet s key := by
  simp [kvGet, kvSet, kvLookup, h]

theorem kvGet_kvSet_none (s : BotState) (key : String) (v : KVValue) :
    kvGet (kvSet s key v none) key = some v := by
  simp [kvGet, kvSet, kvLookup]

theorem kvLookup_kvSet_self (s : BotState) (key : String) (v : KVValue) (ttl : Option Nat) :
    kvLookup (kvSet s key v ttl).kv key = some ⟨v, ttl.map (s.now + ·)⟩ := by
  simp [kvSet, kvLookup]

theorem kvLookup_kvSet_ne (s : BotState) (key' key : String) (v : KVValue)
    (ttl : Option Nat) (h : key' ≠ key) :
    kvLookup (kvSet s key' v ttl).kv key = kvLookup s.kv key := by
  simp [kvSet, kvLookup, h]

theorem randIdx_lt (r : ℚ) (n : Nat) (h0 : 0 ≤ r) (h1 : r < 1) (hn : 0 < n) :
    (r * (n : ℚ)).floor.toNat < n := by
  have hnQ : (0 : ℚ) < (n : ℚ) := by exact_mod_cast hn
  have hfl : (r * (n : ℚ)).floor < (n : ℤ) := by
    by_contra hc
    push_neg at hc
    have h2 := Rat.le_floor.mp hc
    push_cast at h2
    have h3 := mul_lt_mul_of_pos_right h1 hnQ
    rw [one_mul] at h3
    linarith
  omega

theorem lookupCard_of_mem (l : List (String × Card)) (key : String)
    (h : key ∈ l.map Prod.fst) : ∃ card, lookupCard l key = some card := by
  induction l with
  | nil => simp at h
  | cons p rest ih =>
    by_cases hk : p.1 = key
    · exact ⟨p.2, by simp [lookupCard, hk]⟩
    · have : key ∈ rest.map Prod.fst := by
        rcases List.mem_map.mp h with ⟨q, hq, hk'⟩
        rcases List.mem_cons.mp hq with rfl | hq'
        · exact absurd hk' hk
        · exact List.mem_map.mpr ⟨q, hq', hk'⟩
      rcases ih this with ⟨card, hc⟩
      exact ⟨card, by simpa [lookupCard, hk] using hc⟩

/-! ## C2: rejection on an existing cooldown entry -/

/-- C2: when a CooldownEntry exists for the actor (its `kv.get` is truthy) and
the gateway delivers both threaded posts, `drawCard` sends the "too soon"
response threaded under the triggering message and terminates leaving the
whole state — the player's hand and the cooldown store included — exactly as
it was, writing no new CooldownEntry. -/
theorem drawCard_rejected_on_cooldown (env : Env) (s : BotState) (k : Nat)
    (ts u : String) (r1 r2 : PostResult)
    (hgw1 : env.gw k = .ok r1) (hgw2 : env.gw (k + 1) = .ok r2)
    (hcd : truthy (kvGet s ("card_draw:" ++ u)) = true) :
    drawCard env s k ts u =
      ⟨.ok (), s, k + 2,
        [Effect.reaction ts "beachball" true,
         Effect.post s.channelId
           ((if jsStartsWithU u then "<@" ++ u ++ ">" else u) ++ " " ++
             env.tr "drawing.start" ++ "...") (some ts) none,
         Effect.kvGetE ("card_draw:" ++ u),
         Effect.post s.channelId
           ((if jsStartsWithU u then "<@" ++ u ++ ">" else u) ++ " " ++
             env.tr "drawing.too_soon") (some ts) none]⟩ := by
  simp [drawCard, sendMessage, hgw1, hgw2, hcd]

/-- Witness for C2 at a concrete cooled-down player. -/
theorem drawCard_rejected_on_cooldown_witness :
    drawCard
      { cards := [("A", ⟨"The Sun", "warm", "none"⟩)], tr := fun _ => "msg",
        gw := fun _ => .ok ⟨"C1", "111.222"⟩, rand := 0 }
      { channelId := "C1", rootMessage := some ⟨"C1", "100.0"⟩,
        persistedRoot := some ⟨"C1", "100.0"⟩,
        kv := [("card_draw:U7", ⟨.bool true, some 30000⟩)], now := 0 }
      0 "200.0" "U7" =
      ⟨.ok (),
        { channelId := "C1", rootMessage := some ⟨"C1", "100.0"⟩,
          persistedRoot := some ⟨"C1", "100.0"⟩,
          kv := [("card_draw:U7", ⟨.bool true, some 30000⟩)], now := 0 },
        2,
        [Effect.reaction "200.0" "beachball" true,
         Effect.post "C1" "<@U7> msg..." (some "200.0") none,
         Effect.kvGetE "card_draw:U7",
         Effect.post "C1" "<@U7> msg" (some "200.0") none]⟩ := by
  have h := drawCard_rejected_on_cooldown
    { cards := [("A", ⟨"The Sun", "warm", "none"⟩)], tr := fun _ => "msg",
      gw := fun _ => .ok ⟨"C1", "111.222"⟩, rand := 0 }
    { channelId := "C1", rootMessage := some ⟨"C1", "100.0"⟩,
      persistedRoot := some ⟨"C1", "100.0"⟩,
      kv := [("card_draw:U7", ⟨.bool true, some 30000⟩)], now := 0 }
    0 "200.0" "U7" ⟨"C1", "111.222"⟩ ⟨"C1", "111.222"⟩ rfl rfl (by decide)
  simpa using h

/-! ## C8: session update on outbound messages -/

/-- C8: a successful non-threaded `sendMessage` overwrites the in-memory
session and the persisted session with the new message's channel and
timestamp; a threaded `sendMessage` leaves the whole bot state — the session
in memory and on disk included — unchanged. -/
theorem sendMessage_session_update :
    (∀ (env : Env) (s : BotState) (k : Nat) (msg t : String)
        (un : Option String) (r : PostResult), env.gw k = .ok r →
      sendMessage env s k msg (some t) un =
        (.ok r, s, k + 1, [Effect.post s.channelId msg (some t) un])) ∧
    (∀ (env : Env) (s : BotState) (k : Nat) (msg : String)
        (un : Option String) (r : PostResult), env.gw k = .ok r →
      sendMessage env s k msg none un =
        (.ok r,
          { s with rootMessage := some ⟨r.channel, r.ts⟩,
                   persistedRoot := some ⟨r.channel, r.ts⟩ },
          k + 1, [Effect.post s.channelId msg none un])) := by
  constructor
  · intro env s k msg t un r hgw
    simp [sendMessage, hgw]
  · intro env s k msg un r hgw
    simp [sendMessage, saveRootMessage, hgw]

/-- Witness for C8: one threaded and one non-threaded concrete send. -/
theorem sendMessage_session_update_witness :
    (sendMessage
        { cards := [], tr := fun _ => "msg", gw := fun _ => .ok ⟨"C1", "111.222"⟩, rand := 0 }
        { channelId := "C1", rootMessage := none, persistedRoot := none, kv := [], now := 0 }
        0 "hello" (some "100.0") none =
      (.ok ⟨"C1", "111.222"⟩,
        { channelId := "C1", rootMessage := none, persistedRoot := none, kv := [], now := 0 },
        1, [Effect.post "C1" "hello" (some "100.0") none])) ∧
    (sendMessage
        { cards := [], tr := fun _ => "msg", gw := fun _ => .ok ⟨"C1", "111.222"⟩, rand := 0 }
        { channelId := "C1", rootMessage := none, persistedRoot := none, kv := [], now := 0 }
        0 "hello" none none =
      (.ok ⟨"C1", "111.222"⟩,
        { channelId := "C1", rootMessage := some ⟨"C1", "111.222"⟩,
          persistedRoot := some ⟨"C1", "111.222"⟩, kv := [], now := 0 },
        1, [Effect.post "C1" "hello" none none])) :=
  ⟨sendMessage_session_update.1 _ _ 0 "hello" "100.0" none ⟨"C1", "111.222"⟩ rfl,
   sendMessage_session_update.2 _ _ 0 "hello" none ⟨"C1", "111.222"⟩ rfl⟩

/-- Master run lemma: once the start message is delivered, no cooldown marker
is found and the hand resolves, `drawCard` commits the 30-second cooldown
marker, persists the hand with the sampled entry appended, and then either
announces the card or fails at the catalog dereference / at the announcement
post. -/
theorem drawCard_run (env : Env) (s : BotState) (k : Nat) (ts u : String)
    (r1 : PostResult) (h : List (Option String))
    (hgw1 : env.gw k = .ok r1)
    (hcd : truthy (kvGet s ("card_draw:" ++ u)) = false)
    (hhand : resolveHand (kvGet s ("user_hand:" ++ u)) = some h) :
    drawCard env s k ts u =
      (let userMention := if jsStartsWithU u then "<@" ++ u ++ ">" else u
       let avail := (env.cards.map Prod.fst).filter (fun key => !decide (some key ∈ h))
       let sel := avail.get? ((env.rand * (avail.length : ℚ)).floor.toNat)
       let s3 := kvSet (kvSet s ("card_draw:" ++ u) (.bool true) (some (30 * 1000)))
         ("user_hand:" ++ u) (.hand (h ++ [sel])) none
       let effs := [Effect.reaction ts "beachball" true,
         Effect.post s.channelId (userMention ++ " " ++ env.tr "drawing.start" ++ "...")
           (some ts) none,
         Effect.kvGetE ("card_draw:" ++ u), Effect.kvSetE ("card_draw:" ++ u),
         Effect.kvGetE ("user_hand:" ++ u), Effect.kvSetE ("user_hand:" ++ u)]
       match lookupCard env.cards (jsKey sel) with
       | none => ⟨.error .typeError, s3, k + 1, effs ++ [.logError "drawCard"]⟩
       | some card =>
         match env.gw (k + 1) with
         | .error e => ⟨.error (.transport e), s3, k + 2,
             effs ++ [Effect.post s.channelId
               (userMention ++ " draws the " ++ card.name ++ "!\n_" ++
                 env.tr ("cards." ++ jsKey sel ++ ".flavor") ++ "_\n\nRequirements: " ++
                 card.requirements) (some ts) none,
               .logError "sendMessage", .logError "drawCard"]⟩
         | .ok _ => ⟨.ok (), s3, k + 2,
             effs ++ [Effect.post s.channelId
               (userMention ++ " draws the " ++ card.name ++ "!\n_" ++
                 env.tr ("cards." ++ jsKey sel ++ ".flavor") ++ "_\n\nRequirements: " ++
                 card.requirements) (some ts) none]⟩) := by
  simp only [drawCard, sendMessage, hgw1, hcd, Bool.false_eq_true, if_false,
    kvGet_kvSet_ne _ _ _ _ _ (cardDraw_key_ne u), hhand]
  cases hl : lookupCard env.cards
      (jsKey (((env.cards.map Prod.fst).filter (fun key => !decide (some key ∈ h))).get?
        ((env.rand * (((env.cards.map Prod.fst).filter
          (fun key => !decide (some key ∈ h))).length : ℚ)).floor.toNat))) with
  | none => simp [hl]
  | some card =>
    cases hg : env.gw (k + 1) with
    | error e => simp [hl, hg, kvSet]
    | ok r2 => simp [hl, hg, kvSet]

/-! ## C4: the cooldown write is the commit point and precedes sampling -/

/-- C4: when no CooldownEntry exists for the actor and the start message is
delivered, `drawCard` stores the boolean marker `true` under the actor's
cooldown key with an expiry exactly 30000 ms from now — the entry is in the
final store whatever happens later — and the trace begins with the cooldown
write (4th effect) strictly before the hand read (5th effect), so the
rate-limit commit point precedes sampling. -/
theorem drawCard_cooldown_commit_point (env : Env) (s : BotState) (k : Nat)
    (ts u : String) (r1 : PostResult)
    (hgw1 : env.gw k = .ok r1)
    (hcd : truthy (kvGet s ("card_draw:" ++ u)) = false) :
    kvLookup (drawCard env s k ts u).state.kv ("card_draw:" ++ u) =
      some ⟨.bool true, some (s.now + 30000)⟩ ∧
    ∃ rest, (drawCard env s k ts u).effects =
      [Effect.reaction ts "beachball" true,
       Effect.post s.channelId
         ((if jsStartsWithU u then "<@" ++ u ++ ">" else u) ++ " " ++
           env.tr "drawing.start" ++ "...") (some ts) none,
       Effect.kvGetE ("card_draw:" ++ u),
       Effect.kvSetE ("card_draw:" ++ u),
       Effect.kvGetE ("user_hand:" ++ u)] ++ rest := by
  simp only [drawCard, sendMessage, hgw1, hcd, Bool.false_eq_true, if_false]
  constructor
  · repeat' split
    all_goals
      simp [kvLookup_kvSet_self, kvLookup_kvSet_ne _ _ _ _ _ (Ne.symm (cardDraw_key_ne u))]
  · repeat' split
    all_goals exact ⟨_, rfl⟩

/-- Witness for C4 at a concrete fresh player. -/
theorem drawCard_cooldown_commit_point_witness :
    kvLookup (drawCard envOk stFresh 0 "200.0" "U7").state.kv ("card_draw:" ++ "U7") =
      some ⟨.bool true, some (stFresh.now + 30000)⟩ ∧
    ∃ rest, (drawCard envOk stFresh 0 "200.0" "U7").effects =
      [Effect.reaction "200.0" "beachball" true,
       Effect.post stFresh.channelId
         ((if jsStartsWithU "U7" then "<@" ++ "U7" ++ ">" else "U7") ++ " " ++
           envOk.tr "drawing.start" ++ "...") (some "200.0") none,
       Effect.kvGetE ("card_draw:" ++ "U7"),
       Effect.kvSetE ("card_draw:" ++ "U7"),
       Effect.kvGetE ("user_hand:" ++ "U7")] ++ rest :=
  drawCard_cooldown_commit_point envOk stFresh 0 "200.0" "U7" ⟨"C1", "111.222"⟩ rfl (by decide)

/-! ## C1: draws sample a fresh catalog card and preserve the hand invariant -/

/-- C1: whenever a draw reaches the sampling step — the start message was
delivered, no cooldown marker exists, the hand resolves to `h` and some
catalog id is still missing from `h` — the identifier selected and appended
by `drawCard` is a catalog id not already in `h`, and a duplicate-free hand
stays duplicate-free. -/
theorem drawCard_samples_fresh_card (env : Env) (s : BotState) (k : Nat)
    (ts u : String) (r1 : PostResult) (h : List (Option String))
    (hgw1 : env.gw k = .ok r1)
    (hcd : truthy (kvGet s ("card_draw:" ++ u)) = false)
    (hhand : resolveHand (kvGet s ("user_hand:" ++ u)) = some h)
    (hr0 : 0 ≤ env.rand) (hr1 : env.rand < 1)
    (havail : ∃ c ∈ env.cards.map Prod.fst, some c ∉ h) :
    ∃ c : String,
      c ∈ env.cards.map Prod.fst ∧
      some c ∉ h ∧
      kvGet (drawCard env s k ts u).state ("user_hand:" ++ u) =
        some (.hand (h ++ [some c])) ∧
      (h.Nodup → (h ++ [some c]).Nodup) := by
  obtain ⟨c0, hc0, hc0h⟩ := havail
  have hmem0 : c0 ∈ (env.cards.map Prod.fst).filter (fun key => !decide (some key ∈ h)) :=
    List.mem_filter.mpr ⟨hc0, by simpa using hc0h⟩
  have hlen : 0 < ((env.cards.map Prod.fst).filter (fun key => !decide (some key ∈ h))).length :=
    List.length_pos.mpr (List.ne_nil_of_mem hmem0)
  have hidx := randIdx_lt env.rand _ hr0 hr1 hlen
  obtain ⟨c, hsel, hcmem⟩ : ∃ a,
      ((env.cards.map Prod.fst).filter (fun key => !decide (some key ∈ h))).get?
          ((env.rand *
            ((((env.cards.map Prod.fst).filter
              (fun key => !decide (some key ∈ h))).length : ℕ) : ℚ)).floor.toNat) = some a ∧
        a ∈ (env.cards.map Prod.fst).filter (fun key => !decide (some key ∈ h)) :=
    ⟨_, List.get?_eq_get hidx, List.get_mem _ _ _⟩
  have hc := List.mem_filter.mp hcmem
  have hcnot : some c ∉ h := by simpa using hc.2
  obtain ⟨card, hcard⟩ := lookupCard_of_mem env.cards c hc.1
  simp only [List.get?_eq_getElem?] at hsel
  refine ⟨c, hc.1, hcnot, ?_, ?_⟩
  · rw [drawCard_run env s k ts u r1 h hgw1 hcd hhand]
    cases hg : env.gw (k + 1) with
    | error e => simp [hsel, jsKey, hcard, hg, kvGet_kvSet_none]
    | ok r2 => simp [hsel, jsKey, hcard, hg, kvGet_kvSet_none]
  · intro hnd
    simp [List.nodup_append]
    exact ⟨hnd, hcnot⟩

/-- Witness for C1: a fresh player draws from the one-card sample catalog. -/
theorem drawCard_samples_fresh_card_witness :
    ∃ c : String,
      c ∈ envOk.cards.map Prod.fst ∧
      some c ∉ ([] : List (Option String)) ∧
      kvGet (drawCard envOk stFresh 0 "200.0" "U7").state ("user_hand:" ++ "U7") =
        some (.hand ([] ++ [some c])) ∧
      (([] : List (Option String)).Nodup → (([] : List (Option String)) ++ [some c]).Nodup) :=
  drawCard_samples_fresh_card envOk stFresh 0 "200.0" "U7" ⟨"C1", "111.222"⟩ []
    rfl (by decide) rfl (le_refl 0) (by norm_num [envOk]) ⟨"A", by decide, by decide⟩

/-! ## C10: state changes persist when the announcement fails -/

/-- C10: when the start message is delivered but the announcement post
throws, `drawCard` propagates the transport error while the 30-second
CooldownEntry and the card appended to the player's persisted hand are not
rolled back. -/
theorem drawCard_no_rollback_on_failed_announcement (env : Env) (s : BotState)
    (k : Nat) (ts u msg : String) (r1 : PostResult) (h : List (Option String))
    (hgw1 : env.gw k = .ok r1)
    (hgw2 : env.gw (k + 1) = .error msg)
    (hcd : truthy (kvGet s ("card_draw:" ++ u)) = false)
    (hhand : resolveHand (kvGet s ("user_hand:" ++ u)) = some h)
    (hr0 : 0 ≤ env.rand) (hr1 : env.rand < 1)
    (havail : ∃ c ∈ env.cards.map Prod.fst, some c ∉ h) :
    (drawCard env s k ts u).outcome = .error (.transport msg) ∧
    kvLookup (drawCard env s k ts u).state.kv ("card_draw:" ++ u) =
      some ⟨.bool true, some (s.now + 30000)⟩ ∧
    ∃ c : String,
      kvGet (drawCard env s k ts u).state ("user_hand:" ++ u) =
        some (.hand (h ++ [some c])) := by
  obtain ⟨c0, hc0, hc0h⟩ := havail
  have hmem0 : c0 ∈ (env.cards.map Prod.fst).filter (fun key => !decide (some key ∈ h)) :=
    List.mem_filter.mpr ⟨hc0, by simpa using hc0h⟩
  have hlen : 0 < ((env.cards.map Prod.fst).filter (fun key => !decide (some key ∈ h))).length :=
    List.length_pos.mpr (List.ne_nil_of_mem hmem0)
  have hidx := randIdx_lt env.rand _ hr0 hr1 hlen
  obtain ⟨c, hsel, hcmem⟩ : ∃ a,
      ((env.cards.map Prod.fst).filter (fun key => !decide (some key ∈ h))).get?
          ((env.rand *
            ((((env.cards.map Prod.fst).filter
              (fun key => !decide (some key ∈ h))).length : ℕ) : ℚ)).floor.toNat) = some a ∧
        a ∈ (env.cards.map Prod.fst).filter (fun key => !decide (some key ∈ h)) :=
    ⟨_, List.get?_eq_get hidx, List.get_mem _ _ _⟩
  have hc := List.mem_filter.mp hcmem
  obtain ⟨card, hcard⟩ := lookupCard_of_mem env.cards c hc.1
  simp only [List.get?_eq_getElem?] at hsel
  rw [drawCard_run env s k ts u r1 h hgw1 hcd hhand]
  refine ⟨?_, ?_, c, ?_⟩ <;>
    simp [hsel, jsKey, hcard, hgw2, kvGet_kvSet_none, kvLookup_kvSet_self,
      kvLookup_kvSet_ne _ _ _ _ _ (Ne.symm (cardDraw_key_ne u))]

/-- Witness for C10: the gateway delivers the start message and then fails the
announcement. -/
theorem drawCard_no_rollback_on_failed_announcement_witness :
    (drawCard envOkThenFail stFresh 0 "200.0" "U7").outcome =
      .error (.transport "down") ∧
    kvLookup (drawCard envOkThenFail stFresh 0 "200.0" "U7").state.kv
      ("card_draw:" ++ "U7") = some ⟨.bool true, some (stFresh.now + 30000)⟩ ∧
    ∃ c : String,
      kvGet (drawCard envOkThenFail stFresh 0 "200.0" "U7").state ("user_hand:" ++ "U7") =
        some (.hand ([] ++ [some c])) :=
  drawCard_no_rollback_on_failed_announcement envOkThenFail stFresh 0 "200.0" "U7"
    "down" ⟨"C1", "111.222"⟩ [] rfl rfl (by decide) rfl (le_refl 0)
    (by norm_num [envOkThenFail]) ⟨"A", by decide, by decide⟩

/-! ## C9: behaviour when the available-card pool is empty -/

/-- C9 (amended): when the hand already contains every catalog id, the
selection indexes the empty array and yields the undefined value (`none`),
which is appended to the persisted hand — and the pool stays empty, so
repeated exhausted draws keep appending duplicate undefined entries — but the
card is not announced: building the announcement dereferences a property of
`undefined` (no catalog card is keyed `"undefined"`), so `drawCard` raises a
TypeError and the only message posted is the draw-start one. -/
theorem drawCard_exhausted_pool (env : Env) (s : BotState) (k : Nat)
    (ts u : String) (r1 : PostResult) (h : List (Option String))
    (hgw1 : env.gw k = .ok r1)
    (hcd : truthy (kvGet s ("card_draw:" ++ u)) = false)
    (hhand : resolveHand (kvGet s ("user_hand:" ++ u)) = some h)
    (hexh : (env.cards.map Prod.fst).filter (fun key => !decide (some key ∈ h)) = [])
    (hundef : lookupCard env.cards "undefined" = none) :
    (drawCard env s k ts u).outcome = .error .typeError ∧
    kvGet (drawCard env s k ts u).state ("user_hand:" ++ u) =
      some (.hand (h ++ [none])) ∧
    (drawCard env s k ts u).effects.filter isPost =
      [Effect.post s.channelId
        ((if jsStartsWithU u then "<@" ++ u ++ ">" else u) ++ " " ++
          env.tr "drawing.start" ++ "...") (some ts) none] ∧
    (env.cards.map Prod.fst).filter (fun key => !decide (some key ∈ h ++ [none])) = [] := by
  have hexh2 : (env.cards.map Prod.fst).filter
      (fun key => !decide (some key ∈ h ++ [none])) = [] := by
    rw [List.filter_eq_nil] at hexh ⊢
    intro c hcm
    have hch := hexh c hcm
    simp at hch ⊢
    exact hch
  refine ⟨?_, ?_, ?_, hexh2⟩ <;>
  · rw [drawCard_run env s k ts u r1 h hgw1 hcd hhand]
    simp [hexh, jsKey, hundef, kvGet_kvSet_none, isPost]

/-- Counterexample for C9 as stated: at a concrete exhausted hand the
undefined value is appended and persisted, but no card is announced — the
draw ends in a TypeError and the only posted message is the draw-start
notice. -/
theorem drawCard_exhausted_counterexample :
    (drawCard envOk stExhausted 0 "200.0" "U7").outcome = .error .typeError ∧
    kvGet (drawCard envOk stExhausted 0 "200.0" "U7").state ("user_hand:" ++ "U7") =
      some (.hand [some "A", none]) ∧
    ((drawCard envOk stExhausted 0 "200.0" "U7").effects.filter isPost).length = 1 := by
  decide

/-- Witness for C9's amended statement at the same exhausted player. -/
theorem drawCard_exhausted_pool_witness :
    (drawCard envOk stExhausted 0 "200.0" "U7").outcome = .error .typeError ∧
    kvGet (drawCard envOk stExhausted 0 "200.0" "U7").state ("user_hand:" ++ "U7") =
      some (.hand ([some "A"] ++ [none])) ∧
    (drawCard envOk stExhausted 0 "200.0" "U7").effects.filter isPost =
      [Effect.post stExhausted.channelId
        ((if jsStartsWithU "U7" then "<@" ++ "U7" ++ ">" else "U7") ++ " " ++
          envOk.tr "drawing.start" ++ "...") (some "200.0") none] ∧
    (envOk.cards.map Prod.fst).filter
      (fun key => !decide (some key ∈ [some "A"] ++ [none])) = [] :=
  drawCard_exhausted_pool envOk stExhausted 0 "200.0" "U7" ⟨"C1", "111.222"⟩
    [some "A"] rfl (by decide) (by decide) (by decide) (by decide)

/-! ## C3 / C5: event routing and command recognition -/

/-- Routing helper: `drawCard` is invoked exactly when the event is in the
configured channel, its `thread_ts` strictly equals `rootMessage?.messageTs`
(option equality, so two absent values match) and the normalized text is
`DRAW`. -/
theorem handleMessageEvent_calledDraw_iff (env : Env) (s : BotState) (k : Nat)
    (event : MessageEvent) :
    (handleMessageEvent env s k event).calledDraw = true ↔
      (event.channel = s.channelId ∧
       event.thread_ts = s.rootMessage.map RootMessage.messageTs ∧
       jsToUpperCase (jsTrim event.text.data) = "DRAW".data) := by
  by_cases hc : event.channel = s.channelId
  · by_cases h1 : event.thread_ts = s.rootMessage.map RootMessage.messageTs
    · by_cases h2 : jsToUpperCase (jsTrim event.text.data) = "DRAW".data
      · cases ho : (drawCard env s k event.ts (resolveUsername event)).outcome with
        | ok _ => simp [handleMessageEvent, hc, h1, h2, ho]
        | error e => simp [handleMessageEvent, hc, h1, h2, ho]
      · simp [handleMessageEvent, hc, h1, h2]
    · simp [handleMessageEvent, hc, h1]
  · simp [handleMessageEvent, hc]

/-- C3 (amended): for in-channel events the draw path runs exactly when the
event's thread root timestamp equals the session's message timestamp as
possibly-absent values: with a Session present, a differing or absent thread
root is irrelevant; but with no Session loaded, an event that also lacks a
thread root timestamp compares `undefined === undefined` and a `DRAW` text
does trigger `drawCard`. -/
theorem handleMessageEvent_thread_routing (env : Env) (s : BotState) (k : Nat)
    (event : MessageEvent) (hchan : event.channel = s.channelId) :
    (handleMessageEvent env s k event).calledDraw = true ↔
      (event.thread_ts = s.rootMessage.map RootMessage.messageTs ∧
       jsToUpperCase (jsTrim event.text.data) = "DRAW".data) := by
  rw [handleMessageEvent_calledDraw_iff]
  simp [hchan]

/-- Counterexample for C3 as stated: with no Session loaded, a top-level
`DRAW` message in the configured channel does trigger `drawCard`. -/
theorem handleMessageEvent_no_session_counterexample :
    stNoSession.rootMessage = none ∧
    evNoThreadDraw.channel = stNoSession.channelId ∧
    (handleMessageEvent envFail stNoSession 0 evNoThreadDraw).calledDraw = true := by
  decide

/-- Witness for C3's amended statement: the session-absent, thread-absent
event from the counterexample satisfies the option-equality routing rule. -/
theorem handleMessageEvent_thread_routing_witness :
    (handleMessageEvent envFail stNoSession 0 evNoThreadDraw).calledDraw = true ↔
      (evNoThreadDraw.thread_ts = stNoSession.rootMessage.map RootMessage.messageTs ∧
       jsToUpperCase (jsTrim evNoThreadDraw.text.data) = "DRAW".data) :=
  handleMessageEvent_thread_routing envFail stNoSession 0 evNoThreadDraw rfl

/-- C5: for an in-channel, in-thread event the draw command is recognized
exactly when the event text, trimmed and uppercased, equals `DRAW`. -/
theorem handleMessageEvent_draw_recognition (env : Env) (s : BotState) (k : Nat)
    (event : MessageEvent)
    (hchan : event.channel = s.channelId)
    (hthread : event.thread_ts = s.rootMessage.map RootMessage.messageTs) :
    (handleMessageEvent env s k event).calledDraw = true ↔
      jsToUpperCase (jsTrim event.text.data) = "DRAW".data := by
  rw [handleMessageEvent_calledDraw_iff]
  simp [hchan, hthread]

/-- Witness for C5: `" draw "`, `"Draw"` and `"DRAW"` trigger a draw,
`"draws"` does not. -/
theorem handleMessageEvent_draw_recognition_witness :
    (handleMessageEvent envOk stCooldown 0
      { channel := "C1", thread_ts := some "100.0", ts := "200.0",
        text := " draw ", user := "U7", bot_id := none }).calledDraw = true ∧
    (handleMessageEvent envOk stCooldown 0
      { channel := "C1", thread_ts := some "100.0", ts := "200.0",
        text := "Draw", user := "U7", bot_id := none }).calledDraw = true ∧
    (handleMessageEvent envOk stCooldown 0
      { channel := "C1", thread_ts := some "100.0", ts := "200.0",
        text := "DRAW", user := "U7", bot_id := none }).calledDraw = true ∧
    (handleMessageEvent envOk stCooldown 0
      { channel := "C1", thread_ts := some "100.0", ts := "200.0",
        text := "draws", user := "U7", bot_id := none }).calledDraw = false := by
  refine ⟨?_, ?_, ?_, ?_⟩
  · exact (handleMessageEvent_draw_recognition envOk stCooldown 0 _ rfl rfl).mpr (by decide)
  · exact (handleMessageEvent_draw_recognition envOk stCooldown 0 _ rfl rfl).mpr (by decide)
  · exact (handleMessageEvent_draw_recognition envOk stCooldown 0 _ rfl rfl).mpr (by decide)
  · exact Bool.eq_false_iff.mpr (fun hb => absurd
      ((handleMessageEvent_draw_recognition envOk stCooldown 0 _ rfl rfl).mp hb)
      (by decide))

/-! ## C6: actor identity and mention rendering -/

/-- Trace helper: once the gateway answers the start message, the second
effect of a draw is the start post addressed with the actor's mention and the
third is the cooldown-store read keyed by the actor. -/
theorem drawCard_start_effects (env : Env) (s : BotState) (k : Nat)
    (ts u : String) (r1 : PostResult) (hgw1 : env.gw k = .ok r1) :
    (drawCard env s k ts u).effects.get? 1 =
      some (.post s.channelId
        ((if jsStartsWithU u then "<@" ++ u ++ ">" else u) ++ " " ++
          env.tr "drawing.start" ++ "...") (some ts) none) ∧
    (drawCard env s k ts u).effects.get? 2 = some (.kvGetE ("card_draw:" ++ u)) := by
  simp only [drawCard, sendMessage, hgw1]
  constructor <;> (repeat' split) <;> rfl

/-- C6 (amended): for every recognized draw request the actor identity is the
narrator label `"The Fool"` when the event is bot-originated and `event.user`
otherwise; that identity keys the cooldown store, and the user-facing text
renders it as the mention marker `<@id>` exactly when it begins with `'U'` —
identities not beginning with `'U'`, the narrator label among them, are
rendered verbatim. -/
theorem handleMessageEvent_actor_resolution (env : Env) (s : BotState) (k : Nat)
    (event : MessageEvent) (r1 : PostResult)
    (hchan : event.channel = s.channelId)
    (hthread : event.thread_ts = s.rootMessage.map RootMessage.messageTs)
    (htext : jsToUpperCase (jsTrim event.text.data) = "DRAW".data)
    (hgw1 : env.gw k = .ok r1) :
    resolveUsername event =
      (match event.bot_id with | some _ => "The Fool" | none => event.user) ∧
    jsStartsWithU "The Fool" = false ∧
    (handleMessageEvent env s k event).effects.get? 2 =
      some (.kvGetE ("card_draw:" ++ resolveUsername event)) ∧
    (handleMessageEvent env s k event).effects.get? 1 =
      some (.post s.channelId
        ((if jsStartsWithU (resolveUsername event) then
            "<@" ++ resolveUsername event ++ ">"
          else resolveUsername event) ++ " " ++
          env.tr "drawing.start" ++ "...") (some event.ts) none) := by
  obtain ⟨hp1, hp2⟩ :=
    drawCard_start_effects env s k event.ts (resolveUsername event) r1 hgw1
  obtain ⟨hb1, -⟩ := List.get?_eq_some.mp hp1
  obtain ⟨hb2, -⟩ := List.get?_eq_some.mp hp2
  refine ⟨rfl, by decide, ?_, ?_⟩
  · cases ho : (drawCard env s k event.ts (resolveUsername event)).outcome with
    | ok _ =>
      simpa [handleMessageEvent, hchan, hthread, htext, ho] using hp2
    | error e =>
      have hgl : ((drawCard env s k event.ts (resolveUsername event)).effects ++
          [Effect.logError "handleMessageEvent"])[2]? =
          (drawCard env s k event.ts (resolveUsername event)).effects[2]? :=
        List.getElem?_append_left hb2
      simpa [handleMessageEvent, hchan, hthread, htext, ho, hgl] using hp2
  · cases ho : (drawCard env s k event.ts (resolveUsername event)).outcome with
    | ok _ =>
      simpa [handleMessageEvent, hchan, hthread, htext, ho] using hp1
    | error e =>
      have hgl : ((drawCard env s k event.ts (resolveUsername event)).effects ++
          [Effect.logError "handleMessageEvent"])[1]? =
          (drawCard env s k event.ts (resolveUsername event)).effects[1]? :=
        List.getElem?_append_left hb1
      simpa [handleMessageEvent, hchan, hthread, htext, ho, hgl] using hp1

/-- Counterexample for C6 as stated: the raw player identity `W123` is not
rendered as a mention marker — the draw-start post addresses it verbatim and
its text contains no mention bracket at all. -/
theorem handleMessageEvent_mention_counterexample :
    (handleMessageEvent envOk stCooldownW 0 evDrawW).effects.get? 1 =
      some (.post "C1" "W123 msg..." (some "200.0") none) ∧
    ¬ ('<' ∈ "W123 msg...".data) ∧
    "W123 msg..." ≠ "<@W123> msg..." := by
  refine ⟨by decide, by decide, by decide⟩

/-- Witness for C6's amended statement at a concrete human draw request. -/
theorem handleMessageEvent_actor_resolution_witness :
    resolveUsername evDraw =
      (match evDraw.bot_id with | some _ => "The Fool" | none => evDraw.user) ∧
    jsStartsWithU "The Fool" = false ∧
    (handleMessageEvent envOk stCooldown 0 evDraw).effects.get? 2 =
      some (.kvGetE ("card_draw:" ++ resolveUsername evDraw)) ∧
    (handleMessageEvent envOk stCooldown 0 evDraw).effects.get? 1 =
      some (.post stCooldown.channelId
        ((if jsStartsWithU (resolveUsername evDraw) then
            "<@" ++ resolveUsername evDraw ++ ">"
          else resolveUsername evDraw) ++ " " ++
          envOk.tr "drawing.start" ++ "...") (some evDraw.ts) none) :=
  handleMessageEvent_actor_resolution envOk stCooldown 0 evDraw ⟨"C1", "111.222"⟩
    rfl rfl (by decide) rfl

/-! ## C7: draw failures are logged, re-raised, and contained by the handler -/

/-- C7: any error raised inside `drawCard`'s posting / cooldown / sampling /
recording / announcing steps leaves the `drawCard` log entry as the last
trace action before the error propagates, and `handleMessageEvent` catches
every such error, keeps the draw's state changes, appends its own log entry
and returns normally — no draw failure escapes the event handler. -/
theorem draw_errors_logged_and_contained :
    (∀ (env : Env) (s : BotState) (k : Nat) (ts u : String) (err : JsError),
      (drawCard env s k ts u).outcome = .error err →
      (drawCard env s k ts u).effects.getLast? = some (.logError "drawCard")) ∧
    (∀ (env : Env) (s : BotState) (k : Nat) (event : MessageEvent) (err : JsError),
      event.channel = s.channelId →
      event.thread_ts = s.rootMessage.map RootMessage.messageTs →
      jsToUpperCase (jsTrim event.text.data) = "DRAW".data →
      (drawCard env s k event.ts (resolveUsername event)).outcome = .error err →
      handleMessageEvent env s k event =
        ⟨(drawCard env s k event.ts (resolveUsername event)).state,
         (drawCard env s k event.ts (resolveUsername event)).gwIdx,
         (drawCard env s k event.ts (resolveUsername event)).effects ++
           [.logError "handleMessageEvent"], true⟩) := by
  constructor
  · intro env s k ts u err hout
    cases hg1 : env.gw k with
    | error e => simp [drawCard, sendMessage, hg1]
    | ok r1 =>
      simp only [drawCard, sendMessage, hg1] at hout ⊢
      repeat' split at hout
      all_goals simp_all
  · intro env s k event err hchan hthread htext hout
    simp [handleMessageEvent, hchan, hthread, htext, hout]

/-- Witness for C7: a gateway outage fails the draw; the log trails the draw
trace and the handler returns normally with its own log appended. -/
theorem draw_errors_logged_and_contained_witness :
    (drawCard envFail stFresh 0 "200.0" "U7").effects.getLast? =
      some (.logError "drawCard") ∧
    handleMessageEvent envFail stFresh 0 evDraw =
      ⟨(drawCard envFail stFresh 0 evDraw.ts (resolveUsername evDraw)).state,
       (drawCard envFail stFresh 0 evDraw.ts (resolveUsername evDraw)).gwIdx,
       (drawCard envFail stFresh 0 evDraw.ts (resolveUsername evDraw)).effects ++
         [.logError "handleMessageEvent"], true⟩ :=
  ⟨draw_errors_logged_and_contained.1 envFail stFresh 0 "200.0" "U7"
      (.transport "down") (by decide),
   draw_errors_logged_and_contained.2 envFail stFresh 0 evDraw (.transport "down")
      rfl rfl (by decide) (by decide)⟩
